import Mathlib

/-!
# Shallow embedding of the shellshare relay and streamer session

This development embeds the message-handling core of the shellshare
repository: the relay server's per-connection dispatch (`src/server.rs`),
the streamer session's counter/flush logic (`src/cmd/stream.rs`), the PTY
driver's output transform (`src/process.rs`), and the process exit-code
wrapper (`src/main.rs`, `src/cmd/server.rs`).

Bytes are embedded as `Nat` (values 0..255; no arithmetic overflows an
octet here, so no modular reduction is needed).  Rust `usize` counters
become `Nat`.  The hand-rolled cooperative poll result type
(`component_future::Poll`, whose source file is not part of the provided
tree) is modelled from the spec's §4.7 description.
-/

/-- Poll outcome of one cooperative sub-operation.
Modelled from the spec: `component_future::Poll` (src/component_future.rs is
not in the provided tree); §4.7 lists exactly these four outcomes. -/
inductive Poll (α : Type) where
  | event : α → Poll α
  | didWork : Poll α
  | nothingToDo : Poll α
  | notReady : Poll α
deriving DecidableEq

/-- Per-connection metadata recorded at login.
Modelled from the spec: the `metadata` record of a server `Session`
(src/common.rs is not in the provided tree); §3 gives
`{username, term_type, size}`, and `src/server.rs` populates it via
`session.connect(&username, &term_type)`, so only those two fields are
stored here. -/
structure Metadata where
  username : String
  term_type : String
deriving DecidableEq

/-- Server-side session record.
Modelled from the spec: `common::Session` (src/common.rs is not in the
provided tree), as used by `src/server.rs`: an opaque `id` minted per
connection plus optional login metadata. -/
structure Session where
  id : String
  metadata : Option Metadata
deriving DecidableEq

/-- `Session::connect` as invoked from `handle_login_message`:
installs the login metadata. -/
def Session.connect (s : Session) (username term_type : String) : Session :=
  { s with metadata := some { username := username, term_type := term_type } }

/-- `common::ConnectionType` as matched in `src/server.rs`:
`Casting` or `Watching(id)`. -/
inductive ConnectionType where
  | casting : ConnectionType
  | watching : String → ConnectionType
deriving DecidableEq

/-- Protocol messages.
Modelled from the spec: `protocol::Message` (src/protocol.rs is not in the
provided tree); variants follow §3 and the constructors/patterns used in
`src/server.rs` and `src/cmd/stream.rs` (`Login{username, term_type, ..}`,
`StartCasting`, `StartWatching{id}`, `Heartbeat`, `TerminalOutput{data}`,
`Resize{size}`, `ListSessions`, `Sessions`, `Disconnected`, `Error{msg}`). -/
inductive Message where
  | login : String → String → Message
  | startCasting : Message
  | startWatching : String → Message
  | heartbeat : Message
  | terminalOutput : List Nat → Message
  | resize : Nat × Nat → Message
  | listSessions : Message
  | sessions : List Session → Message
  | disconnected : Message
  | error : String → Message
deriving DecidableEq

/-- Whether a message is a `Login` (used to state the gatekeeping claims). -/
def Message.isLogin : Message → Bool
  | Message.login _ _ => true
  | _ => false

/-- Approximate `{:?}` (Debug) rendering of a message.
Modelled from the spec: the derive(Debug) output of `protocol::Message`
(src/protocol.rs is not in the provided tree).  Only its presence inside
`unexpected message: {:?}` / `unauthenticated message: {:?}` matters to the
claims; no claim pins its exact text. -/
def Message.debugStr : Message → String
  | Message.login u t => "Login: " ++ u ++ ", " ++ t
  | Message.startCasting => "StartCasting"
  | Message.startWatching id => "StartWatching: " ++ id
  | Message.heartbeat => "Heartbeat"
  | Message.terminalOutput data => "TerminalOutput: " ++ toString data.length ++ " bytes"
  | Message.resize _ => "Resize"
  | Message.listSessions => "ListSessions"
  | Message.sessions _ => "Sessions"
  | Message.disconnected => "Disconnected"
  | Message.error msg => "Error: " ++ msg

/-- Bounded replay byte log.
Modelled from the spec: `term::Buffer` (src/term.rs is not in the provided
tree); §4.2: `append(bytes)` appends, then drops exactly
`max(0, len + bytes.len − B)` bytes from the front and returns that drop
count; `contents()` is the current window and `len()` its length. -/
structure Buffer where
  max_size : Nat
  data : List Nat
deriving DecidableEq

/-- `Buffer::new(size)` — empty buffer with capacity `size`
(the streamer session passes its `--buffer-size`; `src/server.rs` uses the
default capacity of 4 MiB). -/
def Buffer.new (size : Nat) : Buffer :=
  { max_size := size, data := [] }

/-- The server's `Buffer::new()` with the default 4 MiB capacity. -/
def Buffer.newDefault : Buffer :=
  Buffer.new (4 * 1024 * 1024)

/-- `Buffer::contents`. -/
def Buffer.contents (b : Buffer) : List Nat :=
  b.data

/-- `Buffer::len`. -/
def Buffer.len (b : Buffer) : Nat :=
  b.data.length

/-- `Buffer::append`: returns the number of bytes dropped from the front
together with the updated buffer (Rust mutates in place and returns the
drop count). -/
def Buffer.append (b : Buffer) (buf : List Nat) : Nat × Buffer :=
  let total := b.data ++ buf
  let dropped := total.length - b.max_size
  (dropped, { b with data := total.drop dropped })

/-- Server-side error type, from the `snafu` enum in `src/server.rs`
(only the protocol-level variants that `handle_*_message` can produce;
the transport variants carry opaque I/O sources and never flow through
`handle_message`). -/
inductive ServerError where
  | unexpectedMessage : Message → ServerError
  | unauthenticatedMessage : Message → ServerError
  | invalidWatchId : String → ServerError
deriving DecidableEq

/-- The `snafu(display)` strings of `src/server.rs` for the protocol-level
variants (`"unexpected message: {:?}"`, `"unauthenticated message: {:?}"`,
`"invalid watch id: {}"`). -/
def ServerError.display : ServerError → String
  | ServerError.unexpectedMessage m => "unexpected message: " ++ m.debugStr
  | ServerError.unauthenticatedMessage m => "unauthenticated message: " ++ m.debugStr
  | ServerError.invalidWatchId id => "invalid watch id: " ++ id

/-- Server-side connection state, from `struct Connection` in
`src/server.rs`.  The two socket halves (`rsock`/`wsock`) are I/O handles
and are not part of the embedded state; everything the message handlers
touch is here. -/
structure Connection where
  ty : Option ConnectionType
  session : Session
  saved_data : Buffer
  to_send : List Message
  closed : Bool
deriving DecidableEq

/-- `Connection::new` (socket halves omitted): fresh id, no role, no
metadata, empty replay buffer and out-queue. -/
def Connection.new (id : String) : Connection :=
  { ty := none
    session := { id := id, metadata := none }
    saved_data := Buffer.newDefault
    to_send := []
    closed := false }

/-- `Connection::close`: enqueue `Disconnected` on `Ok` or `Error{msg}` on
`Err`, then flag the connection closed. -/
def Connection.close (c : Connection) (res : Except ServerError Unit) : Connection :=
  match res with
  | Except.ok _ =>
      { c with to_send := c.to_send ++ [Message.disconnected], closed := true }
  | Except.error e =>
      { c with to_send := c.to_send ++ [Message.error e.display], closed := true }

/-- The `casters()` filter of `src/server.rs`: logged in and
`ty == Some(Casting)`. -/
def Connection.isCaster (c : Connection) : Bool :=
  if c.session.metadata.isNone then false
  else c.ty == some ConnectionType.casting

/-- The `watchers_mut()` filter of `src/server.rs`: logged in and
`ty` matches `Some(Watching(..))`. -/
def Connection.isWatcher (c : Connection) : Bool :=
  if c.session.metadata.isNone then false
  else
    match c.ty with
    | some (ConnectionType.watching _) => true
    | _ => false

/-- The relay server's connection map (`HashMap<String, Connection>` in
`src/server.rs`), embedded as an association list keyed by connection id;
iteration order of a `HashMap` is unspecified, and no handler here depends
on it. -/
structure Server where
  connections : List (String × Connection)
deriving DecidableEq

/-- `Server::handle_login_message`: only `Login` is accepted before
metadata exists; it installs metadata via `Session::connect`. Anything
else is an `UnauthenticatedMessage` error. -/
def Server.handle_login_message (srv : Server) (conn : Connection)
    (message : Message) : Except ServerError (Server × Connection) :=
  match message with
  | Message.login username term_type =>
      Except.ok (srv, { conn with session := conn.session.connect username term_type })
  | m => Except.error (ServerError.unauthenticatedMessage m)

/-- `Server::handle_cast_message`: `Heartbeat` is mirrored back;
`TerminalOutput{data}` is appended to this connection's replay buffer and
mirrored onto the out-queue of every `watchers_mut()` connection whose
watched id equals this caster's session id; any other message is an
`UnexpectedMessage` error.  (The caster itself is not in the map while its
message is being handled: `poll_read` removes the connection first.) -/
def Server.handle_cast_message (srv : Server) (conn : Connection)
    (message : Message) : Except ServerError (Server × Connection) :=
  match message with
  | Message.heartbeat =>
      Except.ok (srv, { conn with to_send := conn.to_send ++ [Message.heartbeat] })
  | Message.terminalOutput data =>
      let conn' := { conn with saved_data := (conn.saved_data.append data).2 }
      let conns := srv.connections.map fun kc =>
        if kc.2.isWatcher then
          match kc.2.ty with
          | some (ConnectionType.watching id) =>
              if conn.session.id = id then
                (kc.1, { kc.2 with to_send := kc.2.to_send ++ [Message.terminalOutput data] })
              else kc
          | _ => kc
        else kc
      Except.ok ({ connections := conns }, conn')
  | m => Except.error (ServerError.unexpectedMessage m)

/-- `Server::handle_watch_message`: `Heartbeat` is mirrored back; any
other message is an `UnexpectedMessage` error. -/
def Server.handle_watch_message (srv : Server) (conn : Connection)
    (message : Message) : Except ServerError (Server × Connection) :=
  match message with
  | Message.heartbeat =>
      Except.ok (srv, { conn with to_send := conn.to_send ++ [Message.heartbeat] })
  | m => Except.error (ServerError.unexpectedMessage m)

/-- `Server::handle_other_message` (logged in, no role yet):
`ListSessions` snapshots the casters; `StartCasting` sets the role;
`StartWatching{id}` looks the id up in the connection map — if present the
role becomes `Watching(id)` and a primer `TerminalOutput` carrying that
connection's full replay buffer is enqueued, else the result is an
`InvalidWatchId` error; anything else is `UnexpectedMessage`. -/
def Server.handle_other_message (srv : Server) (conn : Connection)
    (message : Message) : Except ServerError (Server × Connection) :=
  match message with
  | Message.listSessions =>
      let sessions :=
        (((srv.connections.map Prod.snd).filter Connection.isCaster).map
            Connection.session).filter fun s => s.metadata.isSome
      Except.ok (srv, { conn with to_send := conn.to_send ++ [Message.sessions sessions] })
  | Message.startCasting =>
      Except.ok (srv, { conn with ty := some ConnectionType.casting })
  | Message.startWatching id =>
      match srv.connections.lookup id with
      | some cast_conn =>
          Except.ok (srv,
            { conn with
                ty := some (ConnectionType.watching id)
                to_send := conn.to_send ++ [Message.terminalOutput cast_conn.saved_data.contents] })
      | none => Except.error (ServerError.invalidWatchId id)
  | m => Except.error (ServerError.unexpectedMessage m)

/-- `Server::handle_message`: before login (`metadata == None`) everything
routes to `handle_login_message`; afterwards dispatch follows the
connection's role. -/
def Server.handle_message (srv : Server) (conn : Connection)
    (message : Message) : Except ServerError (Server × Connection) :=
  if conn.session.metadata.isNone then
    srv.handle_login_message conn message
  else
    match conn.ty with
    | some ConnectionType.casting => srv.handle_cast_message conn message
    | some (ConnectionType.watching _) => srv.handle_watch_message conn message
    | none => srv.handle_other_message conn message

/-- The message-arrival slice of `Server::poll_read_connection`: on a
decoded frame the server runs `handle_message`; when that fails the
connection is closed with the error (`conn.close(res)`), the map is left
as it was. -/
def Server.processMessage (srv : Server) (conn : Connection)
    (message : Message) : Server × Connection :=
  match srv.handle_message conn message with
  | Except.ok (srv', conn') => (srv', conn')
  | Except.error e => (srv, conn.close (Except.error e))

/-! ## Streamer session (`src/cmd/stream.rs`) -/

/-- Client-engine events consumed by `StreamSession::poll_read_client`
(`crate::client::Event`; src/client.rs is not in the provided tree, but the
five arms matched in `poll_read_client` fix the variants; per that code's
comment the engine never ends its event stream on its own). -/
inductive ClientEvent where
  | disconnect : ClientEvent
  | start : Nat × Nat → ClientEvent
  | connect : ClientEvent
  | serverMessage : Message → ClientEvent
  | resize : Nat × Nat → ClientEvent
deriving DecidableEq

/-- PTY driver events consumed by `StreamSession::poll_read_process`
(`CommandEvent` in `src/process.rs`: `CommandStart(cmd, args)`,
`Output(bytes)`, `CommandExit(status)`; the exit status is opaque to the
session and elided). -/
inductive ProcessEvent where
  | commandStart : String → List String → ProcessEvent
  | output : List Nat → ProcessEvent
  | commandExit : ProcessEvent
deriving DecidableEq

/-- `struct StreamSession` (`src/cmd/stream.rs`), restricted to the fields
the session logic reads or writes: the client engine, PTY process, stdout
handle and raw-screen guard are I/O resources; `sent_messages` records the
`client.send_message(..)` calls so that what was handed to the client
engine is observable. -/
structure StreamSession where
  buffer : Buffer
  sent_local : Nat
  sent_remote : Nat
  needs_flush : Bool
  connected : Bool
  done : Bool
  sent_messages : List Message
deriving DecidableEq

/-- `StreamSession::new` with a given `--buffer-size`: empty buffer, both
counters zero, not connected, not done. -/
def StreamSession.new (buffer_size : Nat) : StreamSession :=
  { buffer := Buffer.new buffer_size
    sent_local := 0
    sent_remote := 0
    needs_flush := false
    connected := false
    done := false
    sent_messages := [] }

/-- `StreamSession::record_bytes`: append to the buffer and decrease each
counter by the returned truncation count, clamping at zero (the source
writes the clamp as `if truncated > sent { 0 } else { sent - truncated }`). -/
def StreamSession.record_bytes (s : StreamSession) (buf : List Nat) : StreamSession :=
  let truncated := (s.buffer.append buf).1
  { s with
      buffer := (s.buffer.append buf).2
      sent_local := if truncated > s.sent_local then 0 else s.sent_local - truncated
      sent_remote := if truncated > s.sent_remote then 0 else s.sent_remote - truncated }

/-- The state effect of one `StreamSession::poll_read_client` arm:
`Disconnect` clears `connected`; `Connect` sets `connected` and resets
`sent_remote` to 0 (resend everything still buffered); `Start`/`Resize`
resize the PTY (external effect) and `ServerMessage` forces an engine
reconnect (internal to the engine) — none of those three touch the session
state embedded here. -/
def StreamSession.applyClientEvent (s : StreamSession) : ClientEvent → StreamSession
  | ClientEvent.disconnect => { s with connected := false }
  | ClientEvent.start _ => s
  | ClientEvent.connect => { s with connected := true, sent_remote := 0 }
  | ClientEvent.serverMessage _ => s
  | ClientEvent.resize _ => s

/-- The state effect of one `StreamSession::poll_read_process` arm:
`CommandStart` acquires the raw screen and resizes the PTY (external
effects only); `CommandExit` sets `done` (but does not terminate the
session); `Output` runs `record_bytes`. -/
def StreamSession.applyProcessEvent (s : StreamSession) : ProcessEvent → StreamSession
  | ProcessEvent.commandStart _ _ => s
  | ProcessEvent.output bs => s.record_bytes bs
  | ProcessEvent.commandExit => { s with done := true }

/-- `StreamSession::poll_write_terminal`], with `n` the byte count that
`stdout.poll_write` accepted (callers guarantee `n` is at most the length
of the slice passed, i.e. `buffer.len() - sent_local`). -/
def StreamSession.poll_write_terminal (s : StreamSession) (n : Nat) :
    Poll Unit × StreamSession :=
  if s.sent_local = s.buffer.len then (Poll.nothingToDo, s)
  else (Poll.didWork, { s with sent_local := s.sent_local + n, needs_flush := true })

/-- `StreamSession::poll_flush_terminal`: a successful flush clears
`needs_flush`. -/
def StreamSession.poll_flush_terminal (s : StreamSession) :
    Poll Unit × StreamSession :=
  if !s.needs_flush then (Poll.nothingToDo, s)
  else (Poll.didWork, { s with needs_flush := false })

/-- `StreamSession::poll_write_server`: when `sent_remote == buffer.len()`
or the engine is disconnected, the session emits its final `Event(())` if
`done` and otherwise has nothing to do; else it hands
`buffer.contents()[sent_remote..]` to the client engine as one
`TerminalOutput` and advances `sent_remote` to `buffer.len()`. -/
def StreamSession.poll_write_server (s : StreamSession) :
    Poll Unit × StreamSession :=
  if s.sent_remote = s.buffer.len ∨ s.connected = false then
    if s.done then (Poll.event (), s) else (Poll.nothingToDo, s)
  else
    (Poll.didWork,
      { s with
          sent_messages :=
            s.sent_messages ++ [Message.terminalOutput (s.buffer.contents.drop s.sent_remote)]
          sent_remote := s.buffer.len })

/-- The session future resolves exactly when one of its five sub-polls
returns `Event(())`; in `StreamSession` only `poll_write_server` ever
produces an `Event` (`poll_read_process` deliberately withholds the final
event — see the comment at its `Ready(None)` arm), so termination of the
session is `poll_write_server` returning `Event`. -/
def StreamSession.terminates (s : StreamSession) : Prop :=
  s.poll_write_server.1 = Poll.event ()

/-- One poll-boundary-to-poll-boundary transition of the streamer session:
each constructor is one sub-operation of `StreamSession::POLL_FNS` acting
on the embedded state.  `writeTerminal` carries the environment fact that
a `poll_write` on stdout accepts at most the length of the slice it was
given. -/
inductive StreamStep : StreamSession → StreamSession → Prop
  | readClient (s : StreamSession) (e : ClientEvent) :
      StreamStep s (s.applyClientEvent e)
  | readProcess (s : StreamSession) (e : ProcessEvent) :
      StreamStep s (s.applyProcessEvent e)
  | writeTerminal (s : StreamSession) (n : Nat)
      (h : n ≤ s.buffer.len - s.sent_local) :
      StreamStep s (s.poll_write_terminal n).2
  | flushTerminal (s : StreamSession) :
      StreamStep s s.poll_flush_terminal.2
  | writeServer (s : StreamSession) :
      StreamStep s s.poll_write_server.2

/-- States of the streamer session reachable from a fresh session with the
given buffer capacity. -/
inductive StreamReachable (size : Nat) : StreamSession → Prop
  | init : StreamReachable size (StreamSession.new size)
  | step {s s' : StreamSession} :
      StreamReachable size s → StreamStep s s' → StreamReachable size s'

/-! ## PTY output transform (`src/process.rs`) -/

/-- The newline fold of `Process::poll_read_stdout`: every `\n` byte (10)
is replaced by `\r\n` (13, 10); every other byte is pushed unchanged. -/
def crlfTransform (bytes : List Nat) : List Nat :=
  bytes.foldl (fun acc c => if c = 10 then acc ++ [13, 10] else acc ++ [c]) []

/-- The transform as the spec's sentence words it: each bare `\n` — a
newline not already preceded by `\r` (13) — becomes `\r\n`, all other
bytes unchanged.  Written from the claim's words, to be compared with
`crlfTransform` (which is translated from the source). -/
def bareLfTransformAux : Option Nat → List Nat → List Nat
  | _, [] => []
  | prev, c :: rest =>
      (if c = 10 ∧ prev ≠ some 13 then [13, 10] else [c])
        ++ bareLfTransformAux (some c) rest

/-- Entry point of the claim-side transform: no byte precedes the first. -/
def bareLfTransform (bytes : List Nat) : List Nat :=
  bareLfTransformAux none bytes

/-! ## Exit codes (`src/main.rs`, `src/cmd/stream.rs`, `src/cmd/server.rs`) -/

/-- Observable outcome of running the binary: exit code plus the lines
printed to stderr. -/
structure ProcOutcome where
  exitCode : Nat
  stderrLines : List String
deriving DecidableEq

/-- The tail of `run_impl` in `src/cmd/stream.rs`:
`tokio::run(fut.map_err(|e| eprintln!("{}", e)))` prints a session error
inside the closure and discards it, and `run_impl` then returns `Ok(())`
unconditionally.  Input: the session future's outcome; output: the value
`run_impl` returns to `main` together with what was printed. -/
def run_impl_outcome (sessionResult : Except String Unit) :
    Except String Unit × List String :=
  match sessionResult with
  | Except.ok _ => (Except.ok (), [])
  | Except.error e => (Except.ok (), [e])

/-- `main` in `src/main.rs`: `Ok` exits 0; `Err` prints the error and
exits 1. -/
def main_outcome (cmdResult : Except String Unit × List String) : ProcOutcome :=
  match cmdResult with
  | (Except.ok _, out) => { exitCode := 0, stderrLines := out }
  | (Except.error e, out) => { exitCode := 1, stderrLines := out ++ [e] }

/-- End-to-end outcome of `stream` for a given streamer-session result:
`main` applied to what `run_impl` returns. -/
def stream_outcome (sessionResult : Except String Unit) : ProcOutcome :=
  main_outcome (run_impl_outcome sessionResult)

/-- A Rust panic, as surfaced by `unimplemented!()`. -/
inductive Panic where
  | unimplemented : Panic
deriving DecidableEq

/-- `run` in `src/cmd/server.rs`: its entire body is `unimplemented!()`,
so every invocation of the `server` subcommand panics before any relay
state exists; the argument matches are never inspected. -/
def cmd_server_run : Except Panic Unit :=
  Except.error Panic.unimplemented

/-! ## Helper lemmas -/

/-- Unrolling the `poll_read_stdout` fold: with any accumulator, the fold
is the accumulator followed by the per-byte expansion of the rest. -/
theorem crlfFold_eq_append (bytes : List Nat) :
    ∀ acc : List Nat,
      bytes.foldl (fun acc c => if c = 10 then acc ++ [13, 10] else acc ++ [c]) acc
        = acc ++ bytes.flatMap (fun c => if c = 10 then [13, 10] else [c]) := by
  induction bytes with
  | nil => intro acc; simp
  | cons b rest ih =>
      intro acc
      simp only [List.foldl_cons, List.flatMap_cons, ih]
      by_cases hb : b = 10 <;> simp [hb]

/-! ## Claims -/

/-- C4: running the `server` subcommand never starts the relay: `run` in
`src/cmd/server.rs` is `unimplemented!()`, so every invocation panics
instead of returning and driving the accept/read/write loop. -/
theorem c4_server_cmd_panics :
    cmd_server_run = Except.error Panic.unimplemented
      ∧ cmd_server_run ≠ Except.ok () :=
  ⟨rfl, by simp [cmd_server_run]⟩

/-- C8 (counterexample): on the PTY chunk `"\r\n"` ([13, 10]) the source
transform duplicates the carriage return — it rewrites the `\n` even
though it is already preceded by `\r` — while the claim's "bare `\n`
only" transform leaves the chunk unchanged. -/
theorem c8_crlf_cex :
    crlfTransform [13, 10] = [13, 13, 10]
      ∧ bareLfTransform [13, 10] = [13, 10]
      ∧ crlfTransform [13, 10] ≠ bareLfTransform [13, 10] := by
  refine ⟨rfl, rfl, ?_⟩
  decide

/-- C8 (amended): the driver's emitted `Output` bytes are the input bytes
with **every** `\n` (10) expanded to `\r\n` (13, 10) — regardless of what
precedes it — and every other byte unchanged, in order. -/
theorem c8_crlf_amended (bytes : List Nat) :
    crlfTransform bytes
      = bytes.flatMap fun c => if c = 10 then [13, 10] else [c] := by
  unfold crlfTransform
  simpa using crlfFold_eq_append bytes []

/-- C9 (counterexample): a streamer session that fails with a PTY read
error still makes the process exit 0 — `run_impl` prints the error inside
the `map_err` closure of `tokio::run` and then returns `Ok(())`, so `main`
never sees the failure; the claim demands exit code 1. -/
theorem c9_exit_code_cex :
    stream_outcome (Except.error "failed to read from pty: Input/output error (os error 5)")
        = { exitCode := 0,
            stderrLines := ["failed to read from pty: Input/output error (os error 5)"] }
      ∧ (stream_outcome (Except.error "failed to read from pty: Input/output error (os error 5)")).exitCode ≠ 1 :=
  ⟨rfl, by decide⟩

/-- C9 (amended): a streamer-session failure is printed to stderr but the
`stream` subcommand still exits 0 (the session error never propagates out
of `run_impl`); exit code 1 is produced only when the command itself
returns an error to `main` — e.g. config errors raised before
`tokio::run` starts the session. -/
theorem c9_exit_code_amended (e : String) :
    stream_outcome (Except.error e) = { exitCode := 0, stderrLines := [e] }
      ∧ stream_outcome (Except.ok ()) = { exitCode := 0, stderrLines := [] }
      ∧ main_outcome (Except.error e, []) = { exitCode := 1, stderrLines := [e] } :=
  ⟨rfl, rfl, rfl⟩

/-- C1 (counterexample): a reachable streamer-session state in which the
child has exited (`done = true`), the engine has never connected
(`connected = false`) and two buffered bytes were never handed to the
client engine (`sent_remote = 0 ≠ 2 = buffer.len()`) — yet the session
terminates: `poll_write_server`'s disconnect escape (`|| !self.connected`)
fires its final `Event`. -/
theorem c1_flush_before_exit_cex :
    StreamReachable 8
        (((StreamSession.new 8).applyProcessEvent
            (ProcessEvent.output [104, 105])).applyProcessEvent ProcessEvent.commandExit)
      ∧ (((StreamSession.new 8).applyProcessEvent
            (ProcessEvent.output [104, 105])).applyProcessEvent ProcessEvent.commandExit).terminates
      ∧ (((StreamSession.new 8).applyProcessEvent
            (ProcessEvent.output [104, 105])).applyProcessEvent ProcessEvent.commandExit).sent_remote
          ≠ (((StreamSession.new 8).applyProcessEvent
            (ProcessEvent.output [104, 105])).applyProcessEvent ProcessEvent.commandExit).buffer.len :=
  ⟨StreamReachable.step
      (StreamReachable.step StreamReachable.init
        (StreamStep.readProcess (StreamSession.new 8) (ProcessEvent.output [104, 105])))
      (StreamStep.readProcess _ ProcessEvent.commandExit),
    rfl, by decide⟩

/-- C1 (amended): the streamer session terminates exactly when the child
has exited and either every buffered byte has been handed to the client
engine (`sent_remote = buffer.len()`) or the engine is currently
disconnected (`connected = false`); in particular, while the engine stays
connected the child's exit keeps the session alive until the buffer is
fully shipped, but a disconnected engine does not. -/
theorem c1_session_termination_amended (s : StreamSession) :
    s.terminates
      ↔ s.done = true ∧ (s.sent_remote = s.buffer.len ∨ s.connected = false) := by
  unfold StreamSession.terminates StreamSession.poll_write_server
  by_cases h1 : s.sent_remote = s.buffer.len ∨ s.connected = false
  · by_cases h2 : s.done <;> simp [h1, h2]
  · simp [h1]

/-- `record_bytes` keeps both counters within the buffer window: appending
can only grow the window or truncate it from the front by exactly the
amount subtracted from each counter. -/
theorem record_bytes_counters_le (s : StreamSession) (bs : List Nat)
    (h1 : s.sent_local ≤ s.buffer.len) (h2 : s.sent_remote ≤ s.buffer.len) :
    (s.record_bytes bs).sent_local ≤ (s.record_bytes bs).buffer.len
      ∧ (s.record_bytes bs).sent_remote ≤ (s.record_bytes bs).buffer.len := by
  simp only [StreamSession.record_bytes, Buffer.append, Buffer.len] at *
  simp only [List.length_drop, List.length_append]
  constructor <;> (split <;> omega)

/-- Every single poll sub-operation of the streamer session preserves
`sent_local ≤ buffer.len()` and `sent_remote ≤ buffer.len()`. -/
theorem streamStep_preserves_counters {s s' : StreamSession}
    (hstep : StreamStep s s')
    (h1 : s.sent_local ≤ s.buffer.len) (h2 : s.sent_remote ≤ s.buffer.len) :
    s'.sent_local ≤ s'.buffer.len ∧ s'.sent_remote ≤ s'.buffer.len := by
  cases hstep with
  | readClient e =>
      cases e with
      | disconnect => exact ⟨h1, h2⟩
      | start sz => exact ⟨h1, h2⟩
      | connect => exact ⟨h1, Nat.zero_le _⟩
      | serverMessage m => exact ⟨h1, h2⟩
      | resize sz => exact ⟨h1, h2⟩
  | readProcess e =>
      cases e with
      | commandStart c a => exact ⟨h1, h2⟩
      | commandExit => exact ⟨h1, h2⟩
      | output bs => exact record_bytes_counters_le s bs h1 h2
  | writeTerminal n h =>
      constructor
      · unfold StreamSession.poll_write_terminal
        split
        · exact h1
        · show s.sent_local + n ≤ s.buffer.len
          omega
      · unfold StreamSession.poll_write_terminal
        split
        · exact h2
        · exact h2
  | flushTerminal =>
      unfold StreamSession.poll_flush_terminal
      split
      · exact ⟨h1, h2⟩
      · exact ⟨h1, h2⟩
  | writeServer =>
      constructor
      · unfold StreamSession.poll_write_server
        split
        · split
          · exact h1
          · exact h1
        · exact h1
      · unfold StreamSession.poll_write_server
        split
        · split
          · exact h2
          · exact h2
        · exact Nat.le_refl _

/-- C7: counter safety.  Part one: at every poll boundary of a reachable
streamer-session state, `sent_local ≤ buffer.len()` and
`sent_remote ≤ buffer.len()` (the lower bounds `0 ≤ _` are inherent in the
`Nat` embedding of `usize`).  Part two: when `record_bytes` causes the
buffer to drop `d` bytes from the front, both counters are decreased by
`d` saturating at zero (`Nat` subtraction is exactly the source's
`if d > c { 0 } else { c - d }`). -/
theorem c7_counter_safety :
    (∀ (size : Nat) (s : StreamSession), StreamReachable size s →
        s.sent_local ≤ s.buffer.len ∧ s.sent_remote ≤ s.buffer.len)
      ∧ ∀ (s : StreamSession) (bs : List Nat),
          (s.record_bytes bs).sent_local = s.sent_local - (s.buffer.append bs).1
            ∧ (s.record_bytes bs).sent_remote = s.sent_remote - (s.buffer.append bs).1 := by
  constructor
  · intro size s hreach
    induction hreach with
    | init => simp [StreamSession.new, Buffer.new, Buffer.len]
    | step hr hs ih => exact streamStep_preserves_counters hs ih.1 ih.2
  · intro s bs
    simp only [StreamSession.record_bytes]
    constructor <;> (split <;> omega)

/-- C7 witness: the invariant instantiated at the concrete reachable state
obtained by a fresh capacity-2 session absorbing the three-byte PTY chunk
[65, 66, 67] (which truncates one byte), and the saturating-decrease
equations at that state for a further one-byte chunk. -/
theorem c7_counter_safety_witness :
    (((StreamSession.new 2).applyProcessEvent (ProcessEvent.output [65, 66, 67])).sent_local
        ≤ ((StreamSession.new 2).applyProcessEvent (ProcessEvent.output [65, 66, 67])).buffer.len
      ∧ ((StreamSession.new 2).applyProcessEvent (ProcessEvent.output [65, 66, 67])).sent_remote
        ≤ ((StreamSession.new 2).applyProcessEvent (ProcessEvent.output [65, 66, 67])).buffer.len)
      ∧ ((((StreamSession.new 2).applyProcessEvent
            (ProcessEvent.output [65, 66, 67])).record_bytes [68]).sent_local
          = ((StreamSession.new 2).applyProcessEvent
              (ProcessEvent.output [65, 66, 67])).sent_local
            - (((StreamSession.new 2).applyProcessEvent
                (ProcessEvent.output [65, 66, 67])).buffer.append [68]).1
        ∧ ((((StreamSession.new 2).applyProcessEvent
            (ProcessEvent.output [65, 66, 67])).record_bytes [68]).sent_remote
          = ((StreamSession.new 2).applyProcessEvent
              (ProcessEvent.output [65, 66, 67])).sent_remote
            - (((StreamSession.new 2).applyProcessEvent
                (ProcessEvent.output [65, 66, 67])).buffer.append [68]).1)) :=
  ⟨c7_counter_safety.1 2
      ((StreamSession.new 2).applyProcessEvent (ProcessEvent.output [65, 66, 67]))
      (StreamReachable.step StreamReachable.init
        (StreamStep.readProcess (StreamSession.new 2) (ProcessEvent.output [65, 66, 67]))),
    c7_counter_safety.2
      ((StreamSession.new 2).applyProcessEvent (ProcessEvent.output [65, 66, 67])) [68]⟩

/-- A logged-in connection does not take the login branch of
`handle_message`. -/
theorem metadata_isNone_false_of_isSome {c : Connection}
    (h : c.session.metadata.isSome = true) :
    c.session.metadata.isNone = false := by
  cases hm : c.session.metadata with
  | none => rw [hm] at h; simp at h
  | some md => rfl

/-- C2: on a connection whose session metadata is `None`, every message is
routed to `handle_login_message` — the role-specific handlers
(`handle_cast_message`, `handle_watch_message`, `handle_other_message`)
are never consulted — and every non-`Login` message yields an
`UnauthenticatedMessage` error, which `poll_read_connection` turns into a
single `Error{msg}` on the connection's out-queue together with the
`closed` flag; the connection map is untouched. -/
theorem c2_unauthenticated_gatekeeping (srv : Server) (conn : Connection)
    (m : Message) (hmeta : conn.session.metadata = none)
    (hm : m.isLogin = false) :
    srv.handle_message conn m = srv.handle_login_message conn m
      ∧ srv.handle_message conn m
          = Except.error (ServerError.unauthenticatedMessage m)
      ∧ srv.processMessage conn m
          = (srv, { conn with
              to_send := conn.to_send
                ++ [Message.error (ServerError.unauthenticatedMessage m).display]
              closed := true }) := by
  have h1 : srv.handle_message conn m = srv.handle_login_message conn m := by
    unfold Server.handle_message
    rw [hmeta]
    rfl
  have h2 : srv.handle_login_message conn m
      = Except.error (ServerError.unauthenticatedMessage m) := by
    cases m
    case login u t => rw [Message.isLogin] at hm; exact absurd hm (by simp)
    all_goals rfl
  refine ⟨h1, h1.trans h2, ?_⟩
  unfold Server.processMessage
  rw [h1, h2]
  rfl

/-- C2 witness: a fresh (never logged in) connection sends `Heartbeat`;
the message is rejected as unauthenticated and the connection is closed
with the corresponding `Error`. -/
theorem c2_unauthenticated_gatekeeping_witness :
    Server.handle_message ⟨[]⟩ (Connection.new "conn0") Message.heartbeat
        = Server.handle_login_message ⟨[]⟩ (Connection.new "conn0") Message.heartbeat
      ∧ Server.handle_message ⟨[]⟩ (Connection.new "conn0") Message.heartbeat
          = Except.error (ServerError.unauthenticatedMessage Message.heartbeat)
      ∧ Server.processMessage ⟨[]⟩ (Connection.new "conn0") Message.heartbeat
          = (⟨[]⟩, { Connection.new "conn0" with
              to_send := (Connection.new "conn0").to_send
                ++ [Message.error (ServerError.unauthenticatedMessage Message.heartbeat).display]
              closed := true }) :=
  c2_unauthenticated_gatekeeping ⟨[]⟩ (Connection.new "conn0") Message.heartbeat rfl rfl

/-- C10: once metadata is set, a further `Login` is rejected whatever the
role: each role handler's fall-through arm returns `UnexpectedMessage`,
`poll_read_connection` closes the connection with the corresponding
`Error`, and the session (hence the original login's metadata) is left
untouched — a second `Login` is never accepted. -/
theorem c10_second_login_rejected (srv : Server) (conn : Connection)
    (u t : String) (hmeta : conn.session.metadata.isSome = true) :
    srv.handle_message conn (Message.login u t)
        = Except.error (ServerError.unexpectedMessage (Message.login u t))
      ∧ srv.processMessage conn (Message.login u t)
          = (srv, conn.close (Except.error
              (ServerError.unexpectedMessage (Message.login u t))))
      ∧ (srv.processMessage conn (Message.login u t)).2.session = conn.session := by
  have h1 : srv.handle_message conn (Message.login u t)
      = Except.error (ServerError.unexpectedMessage (Message.login u t)) := by
    unfold Server.handle_message
    rw [metadata_isNone_false_of_isSome hmeta]
    cases hty : conn.ty with
    | none => rfl
    | some ct => cases ct <;> rfl
  have h2 : srv.processMessage conn (Message.login u t)
      = (srv, conn.close (Except.error
          (ServerError.unexpectedMessage (Message.login u t)))) := by
    unfold Server.processMessage
    rw [h1]
  refine ⟨h1, h2, ?_⟩
  rw [h2]
  rfl

/-- A logged-in connection that is casting, used to instantiate the
cast-side claims. -/
def castConn : Connection :=
  { ty := some ConnectionType.casting
    session := { id := "cast1"
                 metadata := some { username := "doy", term_type := "screen" } }
    saved_data := { max_size := 4 * 1024 * 1024, data := [104, 105] }
    to_send := []
    closed := false }

/-- C10 witness: the caster `castConn` sends a second `Login`; it is
rejected as unexpected, the connection closes, the session survives. -/
theorem c10_second_login_rejected_witness :
    Server.handle_message ⟨[]⟩ castConn (Message.login "doy" "screen")
        = Except.error (ServerError.unexpectedMessage (Message.login "doy" "screen"))
      ∧ Server.processMessage ⟨[]⟩ castConn (Message.login "doy" "screen")
          = (⟨[]⟩, castConn.close (Except.error
              (ServerError.unexpectedMessage (Message.login "doy" "screen"))))
      ∧ (Server.processMessage ⟨[]⟩ castConn (Message.login "doy" "screen")).2.session
          = castConn.session :=
  c10_second_login_rejected ⟨[]⟩ castConn "doy" "screen" rfl

/-- C3 (counterexample): `handle_other_message` only checks that the
watched id is **present** in the connection map, not that it names a
Caster.  Here `"idle1"` is a logged-in connection with no role
(`isCaster = false`); a watcher that sends `StartWatching{id:"idle1"}` is
nevertheless granted role `Watching("idle1")` and primed with that
connection's (empty) replay buffer instead of being closed with
`InvalidWatchId`. -/
theorem c3_start_watching_cex :
    Connection.isCaster
        { ty := none
          session := { id := "idle1"
                       metadata := some { username := "idle", term_type := "vt100" } }
          saved_data := Buffer.newDefault
          to_send := []
          closed := false } = false
      ∧ (Server.processMessage
          ⟨[("idle1",
              { ty := none
                session := { id := "idle1"
                             metadata := some { username := "idle", term_type := "vt100" } }
                saved_data := Buffer.newDefault
                to_send := []
                closed := false })]⟩
          { ty := none
            session := { id := "watch1"
                         metadata := some { username := "obs", term_type := "xterm" } }
            saved_data := Buffer.newDefault
            to_send := []
            closed := false }
          (Message.startWatching "idle1")).2
        = { ty := some (ConnectionType.watching "idle1")
            session := { id := "watch1"
                         metadata := some { username := "obs", term_type := "xterm" } }
            saved_data := Buffer.newDefault
            to_send := [Message.terminalOutput []]
            closed := false } :=
  ⟨rfl, rfl⟩

/-- C3 (amended): for a logged-in, role-less connection sending
`StartWatching{id}`: if `id` names **any** connection currently in the map
— whatever that connection's role — the sender's role becomes
`Watching(id)` and exactly one priming `TerminalOutput` carrying that
connection's full current replay buffer is enqueued to the sender;
only when `id` is absent from the map is the sender closed with the
`InvalidWatchId` error (`"invalid watch id: <id>"`). -/
theorem c3_start_watching_amended (srv : Server) (conn : Connection)
    (id : String) (hmeta : conn.session.metadata.isSome = true)
    (hty : conn.ty = none) :
    (∀ cast_conn, srv.connections.lookup id = some cast_conn →
        srv.processMessage conn (Message.startWatching id)
          = (srv, { conn with
              ty := some (ConnectionType.watching id)
              to_send := conn.to_send
                ++ [Message.terminalOutput cast_conn.saved_data.contents] }))
      ∧ (srv.connections.lookup id = none →
          srv.processMessage conn (Message.startWatching id)
            = (srv, { conn with
                to_send := conn.to_send
                  ++ [Message.error ("invalid watch id: " ++ id)]
                closed := true })) := by
  have hroute : srv.handle_message conn (Message.startWatching id)
      = srv.handle_other_message conn (Message.startWatching id) := by
    unfold Server.handle_message
    rw [metadata_isNone_false_of_isSome hmeta, hty]
    rfl
  have hred : srv.handle_other_message conn (Message.startWatching id)
      = match srv.connections.lookup id with
        | some cc =>
            Except.ok (srv, { conn with
              ty := some (ConnectionType.watching id)
              to_send := conn.to_send
                ++ [Message.terminalOutput cc.saved_data.contents] })
        | none => Except.error (ServerError.invalidWatchId id) := rfl
  constructor
  · intro cast_conn hl
    unfold Server.processMessage
    rw [hroute, hred, hl]
  · intro hl
    unfold Server.processMessage
    rw [hroute, hred, hl]
    rfl

/-- A logged-in connection with no role yet, used to instantiate the
watcher-side claims. -/
def preWatchConn : Connection :=
  { ty := none
    session := { id := "watch1"
                 metadata := some { username := "obs", term_type := "xterm" } }
    saved_data := Buffer.newDefault
    to_send := []
    closed := false }

/-- C3 witness: against a map holding the caster `castConn` under
`"cast1"`, `StartWatching{id:"cast1"}` grants `Watching("cast1")` with the
primer, and `StartWatching{id:"nope"}` closes with
`Error{msg:"invalid watch id: nope"}`. -/
theorem c3_start_watching_amended_witness :
    Server.processMessage ⟨[("cast1", castConn)]⟩ preWatchConn
        (Message.startWatching "cast1")
      = (⟨[("cast1", castConn)]⟩, { preWatchConn with
          ty := some (ConnectionType.watching "cast1")
          to_send := preWatchConn.to_send
            ++ [Message.terminalOutput castConn.saved_data.contents] })
    ∧ Server.processMessage ⟨[("cast1", castConn)]⟩ preWatchConn
        (Message.startWatching "nope")
      = (⟨[("cast1", castConn)]⟩, { preWatchConn with
          to_send := preWatchConn.to_send
            ++ [Message.error ("invalid watch id: " ++ "nope")]
          closed := true }) :=
  ⟨(c3_start_watching_amended ⟨[("cast1", castConn)]⟩ preWatchConn "cast1"
      rfl rfl).1 castConn rfl,
    (c3_start_watching_amended ⟨[("cast1", castConn)]⟩ preWatchConn "nope"
      rfl rfl).2 rfl⟩

/-- C6 (amended): `handle_cast_message` has no `Resize` arm, so a `Resize`
from a Casting connection falls through to `UnexpectedMessage`: the
connection is closed with that `Error` and the server state — including
every watcher's out-queue and the caster's stored metadata — is left
completely unchanged; no `Resize` is forwarded to anyone. -/
theorem c6_resize_amended (srv : Server) (conn : Connection) (sz : Nat × Nat)
    (hmeta : conn.session.metadata.isSome = true)
    (hty : conn.ty = some ConnectionType.casting) :
    srv.handle_message conn (Message.resize sz)
        = Except.error (ServerError.unexpectedMessage (Message.resize sz))
      ∧ srv.processMessage conn (Message.resize sz)
          = (srv, conn.close (Except.error
              (ServerError.unexpectedMessage (Message.resize sz))))
      ∧ (srv.processMessage conn (Message.resize sz)).2.session = conn.session := by
  have h1 : srv.handle_message conn (Message.resize sz)
      = Except.error (ServerError.unexpectedMessage (Message.resize sz)) := by
    unfold Server.handle_message
    rw [metadata_isNone_false_of_isSome hmeta, hty]
    rfl
  have h2 : srv.processMessage conn (Message.resize sz)
      = (srv, conn.close (Except.error
          (ServerError.unexpectedMessage (Message.resize sz)))) := by
    unfold Server.processMessage
    rw [h1]
  refine ⟨h1, h2, ?_⟩
  rw [h2]
  rfl

/-- A logged-in connection watching `castConn`'s stream, used to
instantiate the fan-out claims. -/
def watchingConn : Connection :=
  { ty := some (ConnectionType.watching "cast1")
    session := { id := "watch2"
                 metadata := some { username := "viewer", term_type := "xterm" } }
    saved_data := Buffer.newDefault
    to_send := []
    closed := false }

/-- C6 (counterexample): with a watcher of `castConn`'s stream present in
the map, a `Resize` from the caster leaves the whole server state — the
watcher's out-queue included — identical, updates no metadata, and closes
the caster with an `Error`; the claim instead requires a metadata update
plus a `Resize` enqueued to the watcher. -/
theorem c6_resize_cex :
    watchingConn.ty = some (ConnectionType.watching castConn.session.id)
      ∧ (Server.processMessage ⟨[("watch2", watchingConn)]⟩ castConn
          (Message.resize (24, 80))).1 = ⟨[("watch2", watchingConn)]⟩
      ∧ (Server.processMessage ⟨[("watch2", watchingConn)]⟩ castConn
          (Message.resize (24, 80))).2.closed = true
      ∧ (Server.processMessage ⟨[("watch2", watchingConn)]⟩ castConn
          (Message.resize (24, 80))).2.session = castConn.session :=
  ⟨rfl, rfl, rfl, rfl⟩

/-- C6 witness: the amended behaviour at `castConn` against an empty
map. -/
theorem c6_resize_amended_witness :
    Server.handle_message ⟨[]⟩ castConn (Message.resize (24, 80))
        = Except.error (ServerError.unexpectedMessage (Message.resize (24, 80)))
      ∧ Server.processMessage ⟨[]⟩ castConn (Message.resize (24, 80))
          = (⟨[]⟩, castConn.close (Except.error
              (ServerError.unexpectedMessage (Message.resize (24, 80)))))
      ∧ (Server.processMessage ⟨[]⟩ castConn (Message.resize (24, 80))).2.session
          = castConn.session :=
  c6_resize_amended ⟨[]⟩ castConn (24, 80) rfl rfl

/-- Pointwise form of the cast fan-out: the source's
`watchers_mut()`-filter-plus-inner-id-test treats a map entry exactly as
"logged in and watching this caster" does. -/
theorem cast_fanout_pointwise (casterId : String) (data : List Nat)
    (kc : String × Connection) :
    (if kc.2.isWatcher then
        match kc.2.ty with
        | some (ConnectionType.watching id) =>
            if casterId = id then
              (kc.1, { kc.2 with
                to_send := kc.2.to_send ++ [Message.terminalOutput data] })
            else kc
        | _ => kc
      else kc)
      = if kc.2.session.metadata.isSome = true
            ∧ kc.2.ty = some (ConnectionType.watching casterId) then
          (kc.1, { kc.2 with
            to_send := kc.2.to_send ++ [Message.terminalOutput data] })
        else kc := by
  obtain ⟨k, c⟩ := kc
  cases hm : c.session.metadata with
  | none => simp [Connection.isWatcher, hm]
  | some md =>
      cases hty : c.ty with
      | none => simp [Connection.isWatcher, hm, hty]
      | some ct =>
          cases ct with
          | casting => simp [Connection.isWatcher, hm, hty]
          | watching id =>
              by_cases he : casterId = id
              · subst he
                simp [Connection.isWatcher, hm, hty]
              · simp [Connection.isWatcher, hm, hty, he, Ne.symm he]

/-- C5: a `TerminalOutput{data}` handled from a Casting connection
appends `data` to that connection's replay buffer (touching nothing else
on it), and — in that same handling step — enqueues exactly one mirrored
`TerminalOutput{data}` on the out-queue of every map entry that is logged
in and `Watching` this caster's session id, leaving every other map entry
completely unchanged. -/
theorem c5_cast_output_fanout (srv : Server) (conn : Connection)
    (data : List Nat) (hmeta : conn.session.metadata.isSome = true)
    (hty : conn.ty = some ConnectionType.casting) :
    (srv.processMessage conn (Message.terminalOutput data)).2
        = { conn with saved_data := (conn.saved_data.append data).2 }
      ∧ (srv.processMessage conn (Message.terminalOutput data)).1.connections
        = srv.connections.map fun kc =>
            if kc.2.session.metadata.isSome = true
                ∧ kc.2.ty = some (ConnectionType.watching conn.session.id) then
              (kc.1, { kc.2 with
                to_send := kc.2.to_send ++ [Message.terminalOutput data] })
            else kc := by
  have hroute : srv.handle_message conn (Message.terminalOutput data)
      = srv.handle_cast_message conn (Message.terminalOutput data) := by
    unfold Server.handle_message
    rw [metadata_isNone_false_of_isSome hmeta, hty]
    rfl
  have hred : srv.handle_cast_message conn (Message.terminalOutput data)
      = Except.ok
          (⟨srv.connections.map fun kc =>
              if kc.2.isWatcher then
                match kc.2.ty with
                | some (ConnectionType.watching id) =>
                    if conn.session.id = id then
                      (kc.1, { kc.2 with
                        to_send := kc.2.to_send ++ [Message.terminalOutput data] })
                    else kc
                | _ => kc
              else kc⟩,
            { conn with saved_data := (conn.saved_data.append data).2 }) := rfl
  have hpm : srv.processMessage conn (Message.terminalOutput data)
      = (⟨srv.connections.map fun kc =>
            if kc.2.isWatcher then
              match kc.2.ty with
              | some (ConnectionType.watching id) =>
                  if conn.session.id = id then
                    (kc.1, { kc.2 with
                      to_send := kc.2.to_send ++ [Message.terminalOutput data] })
                  else kc
              | _ => kc
            else kc⟩,
          { conn with saved_data := (conn.saved_data.append data).2 }) := by
    unfold Server.processMessage
    rw [hroute, hred]
  constructor
  · rw [hpm]
  · rw [hpm]
    exact List.map_congr_left fun kc _ =>
      cast_fanout_pointwise conn.session.id data kc

/-- C5 witness: `castConn` sends two bytes with one matching watcher
(`watchingConn`) and one logged-in, role-less connection
(`preWatchConn`) in the map: the watcher's queue gains exactly the
mirrored chunk, the other entry is untouched, and the caster's replay
buffer grows by the chunk. -/
theorem c5_cast_output_fanout_witness :
    (Server.processMessage ⟨[("watch2", watchingConn), ("watch1", preWatchConn)]⟩
        castConn (Message.terminalOutput [33, 10])).2
        = { castConn with saved_data := (castConn.saved_data.append [33, 10]).2 }
      ∧ (Server.processMessage ⟨[("watch2", watchingConn), ("watch1", preWatchConn)]⟩
          castConn (Message.terminalOutput [33, 10])).1.connections
        = ([("watch2", watchingConn), ("watch1", preWatchConn)]
            : List (String × Connection)).map fun kc =>
            if kc.2.session.metadata.isSome = true
                ∧ kc.2.ty = some (ConnectionType.watching castConn.session.id) then
              (kc.1, { kc.2 with
                to_send := kc.2.to_send ++ [Message.terminalOutput [33, 10]] })
            else kc :=
  c5_cast_output_fanout ⟨[("watch2", watchingConn), ("watch1", preWatchConn)]⟩
    castConn [33, 10] rfl rfl
